import Mathlib

/-!
Verification of the anon-api administrative read API (src/api.js) against its
natural-language specification. The development shallowly embeds the
JavaScript request handlers: query-string builders become Lean functions on
strings and lists, database calls become Except-valued inputs, and the
JavaScript numeric-string primitives (isNaN coercion, parseInt, falsy
defaulting) are modelled explicitly.
-/

namespace AnonApi

/-- ASCII characters treated as WhiteSpace or LineTerminator by the
JavaScript runtime when trimming a string for numeric conversion. -/
def jsWhitespace (c : Char) : Bool :=
  c = ' ' || c = '\t' || c = '\n' || c = '\r' || c = '\x0b' || c = '\x0c'

/-- Nonempty and all decimal digits. -/
def digitsNonempty (l : List Char) : Bool :=
  !l.isEmpty && l.all Char.isDigit

/-- Hexadecimal digit test. -/
def isHexDigitCh (c : Char) : Bool :=
  c.isDigit || ('a' ≤ c && c ≤ 'f') || ('A' ≤ c && c ≤ 'F')

/-- ExponentPart of the JavaScript StrDecimalLiteral grammar, or nothing. -/
def expPartOk (l : List Char) : Bool :=
  match l with
  | [] => true
  | c :: r =>
    (c = 'e' || c = 'E') &&
    (match r with
     | '+' :: d => digitsNonempty d
     | '-' :: d => digitsNonempty d
     | d => digitsNonempty d)

/-- StrUnsignedDecimalLiteral of the JavaScript string-to-number grammar:
Infinity, or decimal digits with an optional fraction and exponent, needing
at least one digit before or after the decimal point. -/
def strUnsignedDecimalOk (l : List Char) : Bool :=
  l == "Infinity".data ||
  (let ip := l.takeWhile Char.isDigit
   match l.drop ip.length with
   | [] => !ip.isEmpty
   | '.' :: r2 =>
     let fp := r2.takeWhile Char.isDigit
     (!ip.isEmpty || !fp.isEmpty) && expPartOk (r2.drop fp.length)
   | r => !ip.isEmpty && expPartOk r)

/-- Unsigned non-decimal integer literals of the string-to-number grammar:
0x, 0o and 0b forms, which admit no sign. -/
def nonDecimalOk (l : List Char) : Bool :=
  match l with
  | '0' :: c :: r =>
    ((c = 'x' || c = 'X') && !r.isEmpty && r.all isHexDigitCh) ||
    ((c = 'o' || c = 'O') && !r.isEmpty && r.all (fun d => '0' ≤ d && d ≤ '7')) ||
    ((c = 'b' || c = 'B') && !r.isEmpty && r.all (fun d => d = '0' || d = '1'))
  | _ => false

/-- Trim leading and trailing JavaScript whitespace from a character list. -/
def jsTrimChars (l : List Char) : List Char :=
  ((l.dropWhile jsWhitespace).reverse.dropWhile jsWhitespace).reverse

/-- Whether the JavaScript global isNaN returns true on a string argument:
Number(s) is NaN exactly when the whitespace-trimmed string is nonempty and
fails the StringNumericLiteral grammar (the empty or all-whitespace string
converts to 0). -/
def jsIsNaNOnString (s : String) : Bool :=
  match jsTrimChars s.data with
  | [] => false
  | '+' :: r => !strUnsignedDecimalOk r
  | '-' :: r => !strUnsignedDecimalOk r
  | l => !(strUnsignedDecimalOk l || nonDecimalOk l)

/-- Value of a decimal digit sequence. -/
def decDigitsVal (l : List Char) : Nat :=
  l.foldl (fun a c => 10 * a + (c.toNat - 48)) 0

/-- Value of one hexadecimal digit. -/
def hexDigitVal (c : Char) : Nat :=
  if c.isDigit then c.toNat - 48
  else if 'a' ≤ c && c ≤ 'f' then c.toNat - 87
  else c.toNat - 55

/-- Value of a hexadecimal digit sequence. -/
def hexDigitsVal (l : List Char) : Nat :=
  l.foldl (fun a c => 16 * a + hexDigitVal c) 0

/-- Body step of JavaScript parseInt after sign handling: detect a 0x or
0X hexadecimal marker, then take the longest prefix of digits of the
detected radix and apply the sign. none models the NaN result produced
when that digit prefix is empty. -/
def jsParseIntBody (sign : Int) (body : List Char) : Option Int :=
  match body with
  | '0' :: c :: r =>
    if c = 'x' || c = 'X' then
      let ds := r.takeWhile isHexDigitCh
      if ds.isEmpty then none else some (sign * hexDigitsVal ds)
    else
      let ds := (('0' : Char) :: c :: r).takeWhile Char.isDigit
      if ds.isEmpty then none else some (sign * decDigitsVal ds)
  | b =>
    let ds := b.takeWhile Char.isDigit
    if ds.isEmpty then none else some (sign * decDigitsVal ds)

/-- Model of JavaScript parseInt with no radix argument: skip leading
whitespace, read an optional sign, then parse the digit prefix. -/
def jsParseInt (s : String) : Option Int :=
  match s.data.dropWhile jsWhitespace with
  | '-' :: r => jsParseIntBody (-1) r
  | '+' :: r => jsParseIntBody 1 r
  | l => jsParseIntBody 1 l

/-- JavaScript v || d for a number v that may be NaN (modelled as none):
NaN, 0 and -0 are falsy, so they yield the default. -/
def jsNumOrDefault (v : Option Int) (d : Int) : Int :=
  match v with
  | none => d
  | some n => if n = 0 then d else n

/-- The parseInt-with-default idiom used for every numeric query parameter
(src/api.js lines 158-159, 308-309, 435-436, 534-535, 599, 632, 690); an
absent query parameter is modelled as the empty string, whose parseInt is
NaN, so it also falls back to the default. -/
def effectiveNum (raw : String) (d : Int) : Int :=
  jsNumOrDefault (jsParseInt raw) d

/-- A value pushed onto the bound parameter list: the pg driver receives
either a JavaScript string or a JavaScript number, where none models NaN. -/
inductive SqlValue where
  | str (s : String)
  | num (n : Option Int)
deriving DecidableEq, Repr

/-- The three mutable locals of every filter-building block: whereClause,
queryParams and paramIndex (src/api.js lines 164-166, 314-316, 444-446). -/
structure FilterBuild where
  whereClause : String
  queryParams : List SqlValue
  paramIndex : Nat
deriving DecidableEq, Repr

/-- Filter builder of GET /api/users (src/api.js lines 158-178): an optional
username substring filter and an optional exact gender filter. A JavaScript
string is truthy exactly when nonempty, so if (search) becomes
if search not equal to the empty string. -/
def usersFilterBuild (search gender : String) : FilterBuild :=
  let b0 : FilterBuild := ⟨"", [], 1⟩
  let b1 :=
    if search ≠ "" then
      { whereClause := b0.whereClause ++ " WHERE username ILIKE $" ++ toString b0.paramIndex,
        queryParams := b0.queryParams ++ [SqlValue.str ("%" ++ search ++ "%")],
        paramIndex := b0.paramIndex + 1 }
    else b0
  if gender ≠ "" then
    { whereClause := b1.whereClause ++
        (if search ≠ "" then " AND gender = $" ++ toString b1.paramIndex
         else " WHERE gender = $" ++ toString b1.paramIndex),
      queryParams := b1.queryParams ++ [SqlValue.str gender],
      paramIndex := b1.paramIndex + 1 }
  else b1

/-- Filter builder of GET /api/messages (src/api.js lines 435-480): optional
conversation id, user id, message substring, and inclusive date range
filters, in that declaration order. The source templates embed one leading
space in each named condition, so the joined clause carries a double space
after WHERE or AND for those conditions, which is reproduced here. -/
def messagesFilterBuild (conversationId userId search dateFrom dateTo : String) :
    FilterBuild :=
  let b0 : FilterBuild := ⟨"", [], 1⟩
  let b1 :=
    if conversationId ≠ "" then
      { whereClause := b0.whereClause ++ " WHERE conversation_id = $" ++ toString b0.paramIndex,
        queryParams := b0.queryParams ++ [SqlValue.str conversationId],
        paramIndex := b0.paramIndex + 1 }
    else b0
  let b2 :=
    if userId ≠ "" then
      let userCondition := " (sender_user_id = $" ++ toString b1.paramIndex ++
        " OR receiver_user_id = $" ++ toString b1.paramIndex ++ ")"
      { whereClause := b1.whereClause ++
          (if conversationId ≠ "" then " AND " ++ userCondition else " WHERE " ++ userCondition),
        queryParams := b1.queryParams ++ [SqlValue.num (jsParseInt userId)],
        paramIndex := b1.paramIndex + 1 }
    else b1
  let b3 :=
    if search ≠ "" then
      let searchCondition := " message ILIKE $" ++ toString b2.paramIndex
      { whereClause := b2.whereClause ++
          (if conversationId ≠ "" ∨ userId ≠ "" then " AND " ++ searchCondition
           else " WHERE " ++ searchCondition),
        queryParams := b2.queryParams ++ [SqlValue.str ("%" ++ search ++ "%")],
        paramIndex := b2.paramIndex + 1 }
    else b2
  let b4 :=
    if dateFrom ≠ "" then
      let dateCondition := " timestamp >= $" ++ toString b3.paramIndex
      { whereClause := b3.whereClause ++
          (if conversationId ≠ "" ∨ userId ≠ "" ∨ search ≠ "" then " AND " ++ dateCondition
           else " WHERE " ++ dateCondition),
        queryParams := b3.queryParams ++ [SqlValue.str dateFrom],
        paramIndex := b3.paramIndex + 1 }
    else b3
  if dateTo ≠ "" then
    let dateCondition := " timestamp <= $" ++ toString b4.paramIndex
    { whereClause := b4.whereClause ++
        (if conversationId ≠ "" ∨ userId ≠ "" ∨ search ≠ "" ∨ dateFrom ≠ "" then
           " AND " ++ dateCondition
         else " WHERE " ++ dateCondition),
      queryParams := b4.queryParams ++ [SqlValue.str dateTo],
      paramIndex := b4.paramIndex + 1 }
  else b4

/-- The handler pushes limit and offset after building the filters
(src/api.js lines 192, 498), so the page query receives the filter
parameters followed by the two pagination parameters. -/
def pageQueryParams (b : FilterBuild) (limit offset : Int) : List SqlValue :=
  b.queryParams ++ [SqlValue.num (some limit), SqlValue.num (some offset)]

/-- The count query receives queryParams.slice(0, -2), everything except
the last two entries (src/api.js lines 195, 501). -/
def countQueryParams (b : FilterBuild) (limit offset : Int) : List SqlValue :=
  (pageQueryParams b limit offset).dropLast.dropLast

/-- Specification-side predicate joiner, from spec section 4.1: given the
condition texts of the active filters in declaration order, the predicate
is empty when there are none and otherwise opens with WHERE and joins
successive conditions with AND. Each condition text carries its own leading
space, exactly as the source templates do. -/
def specJoinConds : List String → String
  | [] => ""
  | c :: cs => " WHERE" ++ c ++ String.join (cs.map (fun d => " AND" ++ d))

/-- Specification-side placeholder assignment, from spec section 4.1:
indices are handed out strictly increasing from the given start, in
declaration order, skipping inactive filters. -/
def specAssign : Nat → List (Bool × (Nat → String)) → List String
  | _, [] => []
  | i, (active, tmpl) :: rest =>
    if active then tmpl i :: specAssign (i + 1) rest else specAssign i rest

/-- Condition templates of the users endpoint in declaration order. -/
def usersCondTemplates (search gender : String) : List (Bool × (Nat → String)) :=
  [(search ≠ "", fun i => " username ILIKE $" ++ toString i),
   (gender ≠ "", fun i => " gender = $" ++ toString i)]

/-- Condition templates of the messages endpoint in declaration order. -/
def messagesCondTemplates (conversationId userId search dateFrom dateTo : String) :
    List (Bool × (Nat → String)) :=
  [(conversationId ≠ "", fun i => " conversation_id = $" ++ toString i),
   (userId ≠ "", fun i => "  (sender_user_id = $" ++ toString i ++
      " OR receiver_user_id = $" ++ toString i ++ ")"),
   (search ≠ "", fun i => "  message ILIKE $" ++ toString i),
   (dateFrom ≠ "", fun i => "  timestamp >= $" ++ toString i),
   (dateTo ≠ "", fun i => "  timestamp <= $" ++ toString i)]

/-- Number of active filters of the users endpoint. -/
def usersActiveCount (search gender : String) : Nat :=
  (if search ≠ "" then 1 else 0) + (if gender ≠ "" then 1 else 0)

/-- Number of active filters of the messages endpoint. -/
def messagesActiveCount (conversationId userId search dateFrom dateTo : String) : Nat :=
  (if conversationId ≠ "" then 1 else 0) + (if userId ≠ "" then 1 else 0) +
  (if search ≠ "" then 1 else 0) + (if dateFrom ≠ "" then 1 else 0) +
  (if dateTo ≠ "" then 1 else 0)

/-- Pagination metadata returned by every paginated endpoint (src/api.js
lines 199-210, 356-367, 505-516, 570-581): totalPages is
Math.ceil(total / limit), hasNext is page < totalPages and hasPrev is
page > 1. -/
structure PageMeta where
  currentPage : Nat
  totalPages : Nat
  totalItems : Nat
  hasNext : Bool
  hasPrev : Bool
deriving DecidableEq, Repr

/-- Paginated query executor shared by the list endpoints: rows is the
filtered, sorted row list held by the database, so the count query returns
its length and the page query applies OFFSET (page - 1) * limit then LIMIT.
For a positive limit the JavaScript Math.ceil(total / limit) equals the
natural number (total + limit - 1) / limit used here. -/
def paginate (rows : List α) (page limit : Nat) : List α × PageMeta :=
  let offset := (page - 1) * limit
  let totalItems := rows.length
  let totalPages := (totalItems + limit - 1) / limit
  ((rows.drop offset).take limit,
   ⟨page, totalPages, totalItems, decide (page < totalPages), decide (1 < page)⟩)

/-- The lookup key of the single-user query: either by numeric user_id
with the parsed number as bound parameter, or by username. -/
inductive UserLookup where
  | byId (idParam : Option Int)
  | byHandle (usernameParam : String)
deriving DecidableEq, Repr

/-- Identifier resolution of GET /api/users/:identifier (src/api.js lines
227-237): isUserId is the negation of isNaN(identifier); a numeric
identifier is looked up by user_id = parseInt(identifier), anything else by
username, with the at-sign marker prepended when absent. -/
def resolveIdentifier (identifier : String) : UserLookup :=
  if jsIsNaNOnString identifier = false then
    UserLookup.byId (jsParseInt identifier)
  else
    UserLookup.byHandle
      (if "@".data.isPrefixOf identifier.data then identifier else "@" ++ identifier)

/-- A row of the usernames relation as the handlers read it. -/
structure UserRow where
  user_id : Int
  username : String
  gender : String
deriving DecidableEq, Repr

/-- A JSON error body: the 500 handler fills message and context, the 404
branches send only the error field. -/
structure ErrorBody where
  error : String
  message : Option String
  context : Option String
deriving DecidableEq, Repr

/-- Outcome of a request handler: a 200 JSON body, or an error status with
an error body. -/
inductive ApiResponse (β : Type) where
  | ok (body : β)
  | failure (status : Nat) (body : ErrorBody)
deriving DecidableEq, Repr

/-- handleError (src/api.js lines 34-41): every caught error becomes a 500
response with the fixed error string, the message of the thrown error, and
the handler context label. -/
def handleError (msg context : String) : ApiResponse β :=
  ApiResponse.failure 500 ⟨"Internal server error", some msg, some context⟩

/-- Body of a successful GET /api/users/:identifier response (src/api.js
lines 285-292); gamma is the row type of the recent conversations query. -/
structure UserDetailsBody (γ : Type) where
  user : UserRow
  conversationCount : Int
  messageCount : Int
  recentConversations : List γ
deriving DecidableEq, Repr

/-- GET /api/users/:identifier (src/api.js lines 221-299) as a function of
the identifier and of the database outcomes. userDb answers the user
lookup query for the resolved key; the three per-user queries are keyed by
the found user_id. Promise.all rejects with one failing promise; the model
propagates the conversation count error first, then message count, then
recent conversations, fixing one of the possible rejection orders (which
error message wins does not affect any claim). -/
def getUserDetails (identifier : String)
    (userDb : UserLookup → Except String (List UserRow))
    (convCountDb : Int → Except String Int)
    (msgCountDb : Int → Except String Int)
    (recentDb : Int → Except String (List γ)) : ApiResponse (UserDetailsBody γ) :=
  match userDb (resolveIdentifier identifier) with
  | Except.error e => handleError e "get user details"
  | Except.ok [] => ApiResponse.failure 404 ⟨"User not found", none, none⟩
  | Except.ok (user :: _) =>
    match convCountDb user.user_id, msgCountDb user.user_id, recentDb user.user_id with
    | Except.error e, _, _ => handleError e "get user details"
    | Except.ok _, Except.error e, _ => handleError e "get user details"
    | Except.ok _, Except.ok _, Except.error e => handleError e "get user details"
    | Except.ok cc, Except.ok mc, Except.ok rc => ApiResponse.ok ⟨user, cc, mc, rc⟩

/-- Body of a successful GET /api/conversations/:conversationId response
(src/api.js lines 416-419). -/
structure ConvDetailsBody (δ ε : Type) where
  conversation : δ
  messages : List ε
deriving DecidableEq, Repr

/-- GET /api/conversations/:conversationId (src/api.js lines 378-426) as a
function of the two database outcomes, which the handler awaits together
before checking for the empty row set. -/
def getConversationDetails (conversationId : String)
    (convDb : String → Except String (List δ))
    (msgsDb : String → Except String (List ε)) : ApiResponse (ConvDetailsBody δ ε) :=
  match convDb conversationId, msgsDb conversationId with
  | Except.error e, _ => handleError e "get conversation details"
  | Except.ok _, Except.error e => handleError e "get conversation details"
  | Except.ok [], Except.ok _ =>
    ApiResponse.failure 404 ⟨"Conversation not found", none, none⟩
  | Except.ok (conv :: _), Except.ok ms => ApiResponse.ok ⟨conv, ms⟩

/-- A row of the conversation_stats summary relation or of the fallback
aggregation (src/api.js lines 54-74); either query can deliver null
aggregate fields, modelled as none. The pg driver delivers numerics as
strings which the shaping parses back; the model keeps them as numbers. -/
structure ConvStatsRow where
  total_conversations : Option Int
  active_conversations : Option Int
  ended_conversations : Option Int
  avg_messages_per_conversation : Option ℚ
  conversations_today : Option Int
deriving DecidableEq, Repr

/-- JavaScript Math.round: floor of the argument plus one half. -/
def jsRound (q : ℚ) : Int := Int.floor (q + 1 / 2)

/-- A row of the gender grouping query. -/
structure GenderCount where
  gender : String
  count : Int
deriving DecidableEq, Repr

/-- A row of the message stats query. -/
structure MsgStatsRow where
  total_messages : Option Int
  unique_senders : Option Int
deriving DecidableEq, Repr

/-- A row of the daily messages query. -/
structure DailyRow where
  message_date : String
  daily_messages : Int
deriving DecidableEq, Repr

/-- The full dashboard response body (src/api.js lines 125-142). -/
structure DashboardBody where
  usersTotal : Int
  usersByGender : List GenderCount
  conversationsTotal : Int
  conversationsActive : Int
  conversationsEnded : Int
  conversationsAvgMessages : Int
  conversationsToday : Int
  messagesTotal : Int
  messagesUniqueSenders : Int
  messagesDailyStats : List DailyRow
deriving DecidableEq, Repr

/-- Inner try/catch of the dashboard handler (src/api.js lines 109-123):
the first component is the conversationStats value handed to the response
shaping, the second counts executions of the fallback aggregation query.
primary is the outcome of the conversation_stats read and fallback the
outcome of the fallback aggregation, which always yields exactly one row
when it succeeds because it is a grand aggregate. -/
def pickConversationStats (primary : Except String (List ConvStatsRow))
    (fallback : Except String ConvStatsRow) : Except String ConvStatsRow × Nat :=
  match primary with
  | Except.ok (r :: _) => (Except.ok r, 0)
  | Except.ok [] =>
    (match fallback with
     | Except.ok r => (Except.ok r, 1)
     | Except.error e => (Except.error e, 1))
  | Except.error _ =>
    (match fallback with
     | Except.ok r => (Except.ok r, 1)
     | Except.error e => (Except.error e, 1))

/-- Response shaping of the dashboard handler (src/api.js lines 125-142):
each count field is the row field with null falling back to zero, and the
average is rounded. The same shaping serves both the summary row and the
fallback row. -/
def shapeDashboard (userTotal : Int) (genderRows : List GenderCount)
    (msgStats : List MsgStatsRow) (daily : List DailyRow)
    (row : ConvStatsRow) : DashboardBody :=
  { usersTotal := userTotal
    usersByGender := genderRows
    conversationsTotal := row.total_conversations.getD 0
    conversationsActive := row.active_conversations.getD 0
    conversationsEnded := row.ended_conversations.getD 0
    conversationsAvgMessages := jsRound (row.avg_messages_per_conversation.getD 0)
    conversationsToday := row.conversations_today.getD 0
    messagesTotal := ((msgStats.head?.bind MsgStatsRow.total_messages).getD 0)
    messagesUniqueSenders := ((msgStats.head?.bind MsgStatsRow.unique_senders).getD 0)
    messagesDailyStats := daily }

/-- GET /api/dashboard/stats (src/api.js lines 44-149) as a function of the
five query outcomes; the four Promise.all queries are assumed successful
(their failure goes to the outer catch) and the summary read plus fallback
drive the inner try/catch. The second component counts fallback
executions. -/
def dashboardStats (userTotal : Int) (genderRows : List GenderCount)
    (msgStats : List MsgStatsRow) (daily : List DailyRow)
    (primary : Except String (List ConvStatsRow))
    (fallback : Except String ConvStatsRow) : ApiResponse DashboardBody × Nat :=
  match pickConversationStats primary fallback with
  | (Except.error e, n) => (handleError e "dashboard stats", n)
  | (Except.ok row, n) =>
    (ApiResponse.ok (shapeDashboard userTotal genderRows msgStats daily row), n)

/-- A row of the recent activity feed: the two source queries tag every row
with its discriminant type, conversation or message, so the merged array is
heterogeneous (src/api.js lines 635-660). -/
inductive ActivityRow where
  | conversation (reference_id : Int) (user1_username user2_username : String)
      (timestamp : Int) (status : String)
  | message (reference_id : Int) (sender_username receiver_username : String)
      (preview : String) (timestamp : Int)
deriving DecidableEq, Repr

/-- The timestamp column both queries expose under the same alias. -/
def activityTimestamp : ActivityRow → Int
  | ActivityRow.conversation _ _ _ t _ => t
  | ActivityRow.message _ _ _ _ t => t

/-- The comparator (a, b) => new Date(b.timestamp) - new Date(a.timestamp)
(src/api.js line 669): a sorts no later than b when the difference is not
positive, giving descending timestamp order. -/
def activityDesc (a b : ActivityRow) : Bool :=
  decide (activityTimestamp b ≤ activityTimestamp a)

/-- GET /api/activity/recent merge (src/api.js lines 662-674): spread both
row sets into one array, sort by timestamp descending, and slice the first
limit entries. The engine sort is stable, modelled by mergeSort. -/
def recentActivity (convRows msgRows : List ActivityRow) (limit : Nat) :
    List ActivityRow :=
  ((convRows ++ msgRows).mergeSort activityDesc).take limit

/-- Conversations with timestamps 3, 2, 1, the example of the claim. -/
def exConvRows : List ActivityRow :=
  [ActivityRow.conversation 1 "a" "b" 3 "active",
   ActivityRow.conversation 2 "c" "d" 2 "ended",
   ActivityRow.conversation 3 "e" "f" 1 "active"]

/-- Messages with timestamps 4, 0, -1, the example of the claim. -/
def exMsgRows : List ActivityRow :=
  [ActivityRow.message 1 "a" "b" "hi" 4,
   ActivityRow.message 2 "c" "d" "yo" 0,
   ActivityRow.message 3 "e" "f" "hm" (-1)]

/-- Count query text of GET /api/users (src/api.js line 180). -/
def usersCountQueryText (b : FilterBuild) : String :=
  "SELECT COUNT(*) as total FROM usernames" ++ b.whereClause

/-- Page query text of GET /api/users (src/api.js lines 181-190). -/
def usersPageQueryText (b : FilterBuild) : String :=
  "\n      SELECT \n        user_id,\n        username,\n        gender\n      FROM usernames\n      " ++
  b.whereClause ++
  "\n      ORDER BY user_id DESC\n      LIMIT $" ++ toString b.paramIndex ++
  " OFFSET $" ++ toString (b.paramIndex + 1) ++ "\n    "

/-- Count query text of GET /api/messages (src/api.js line 482). -/
def messagesCountQueryText (b : FilterBuild) : String :=
  "SELECT COUNT(*) as total FROM chat_logs" ++ b.whereClause

/-- Page query text of GET /api/messages (src/api.js lines 483-496). -/
def messagesPageQueryText (b : FilterBuild) : String :=
  "\n      SELECT \n        conversation_id,\n        sender_user_id,\n        sender_username,\n        receiver_user_id,\n        receiver_username,\n        message,\n        timestamp\n      FROM chat_logs\n      " ++
  b.whereClause ++
  "\n      ORDER BY timestamp DESC\n      LIMIT $" ++ toString b.paramIndex ++
  " OFFSET $" ++ toString (b.paramIndex + 1) ++ "\n    "

/-- The parsed days parameter of GET /api/analytics/usage (src/api.js line
690), default 7. -/
def analyticsDays (raw : String) : Int := effectiveNum raw 7

/-- Fixed text before the interpolated days value in the daily
conversations analytics query (src/api.js lines 704-712). -/
def analyticsConversationsPre : String :=
  "\n      SELECT \n        DATE(started_at AT TIME ZONE \x27Asia/Jakarta\x27) as date,\n        COUNT(*) as new_conversations\n      FROM conversations \n      WHERE started_at >= NOW() - INTERVAL \x27"

/-- Fixed text after the interpolated days value in the daily conversations
analytics query. -/
def analyticsConversationsSuf : String :=
  " days\x27\n      GROUP BY DATE(started_at AT TIME ZONE \x27Asia/Jakarta\x27)\n      ORDER BY date DESC\n    "

/-- Daily conversations analytics query: the parsed days value is
interpolated directly into the INTERVAL literal of the query text. -/
def analyticsConversationsQuery (daysRaw : String) : String :=
  analyticsConversationsPre ++ toString (analyticsDays daysRaw) ++ analyticsConversationsSuf

/-- Fixed text before the interpolated days value in the daily messages
analytics query (src/api.js lines 715-723). -/
def analyticsMessagesPre : String :=
  "\n      SELECT \n        DATE(timestamp AT TIME ZONE \x27Asia/Jakarta\x27) as date,\n        COUNT(*) as messages\n      FROM chat_logs \n      WHERE timestamp >= NOW() - INTERVAL \x27"

/-- Fixed text after the interpolated days value in the daily messages
analytics query. -/
def analyticsMessagesSuf : String :=
  " days\x27\n      GROUP BY DATE(timestamp AT TIME ZONE \x27Asia/Jakarta\x27)\n      ORDER BY date DESC\n    "

/-- Daily messages analytics query, also interpolating the days value. -/
def analyticsMessagesQuery (daysRaw : String) : String :=
  analyticsMessagesPre ++ toString (analyticsDays daysRaw) ++ analyticsMessagesSuf

/-- Database connection events of one request handler execution. -/
inductive ConnEv where
  | connAttempt
  | respond
  | connRelease
deriving DecidableEq, Repr

/-- JavaScript try/catch/finally semantics for a body that emits events and
either returns or throws, a catch handler that emits events and returns,
and a finally block of events: the finally events run on the return path
and on the caught path alike, after everything else. -/
def jsTryCatchFinally (body : List ConnEv × Except String ρ)
    (hcatch : String → List ConnEv × ρ) (hfin : List ConnEv) : List ConnEv × ρ :=
  match body with
  | (evs, Except.ok r) => (evs ++ hfin, r)
  | (evs, Except.error e) => (evs ++ (hcatch e).1 ++ hfin, (hcatch e).2)

/-- The handler shape shared by all ten endpoints (src/api.js lines 44-149,
152-218, 221-299, 302-375, 378-426, 429-524, 527-589, 592-623, 626-681,
684-755): create a client, then try { await connect; work; respond } catch
{ handleError responds } finally { await client.end() }. connectRes is the
outcome of client.connect, inside the try block; work is the rest of the
body, whose ok results cover both successful and early-returned not-found
responses. -/
def apiHandlerEvents (connectRes : Except String Unit) (work : Except String ρ)
    (errResp : String → ρ) : List ConnEv × ρ :=
  jsTryCatchFinally
    (match connectRes with
     | Except.error e => ([ConnEv.connAttempt], Except.error e)
     | Except.ok _ =>
       match work with
       | Except.ok r => ([ConnEv.connAttempt, ConnEv.respond], Except.ok r)
       | Except.error e => ([ConnEv.connAttempt], Except.error e))
    (fun e => ([ConnEv.respond], errResp e))
    [ConnEv.connRelease]

example : jsIsNaNOnString "123" = false := by decide

example : jsIsNaNOnString "12.5" = false := by decide

example : jsIsNaNOnString "1e2" = false := by decide

example : jsIsNaNOnString " " = false := by decide

example : jsIsNaNOnString "" = false := by decide

example : jsIsNaNOnString "@foo" = true := by decide

example : jsIsNaNOnString "abc" = true := by decide

example : jsIsNaNOnString "0x1A" = false := by decide

example : jsIsNaNOnString "12.5.3" = true := by decide

example : jsIsNaNOnString "-3.5" = false := by decide

example : jsIsNaNOnString "1e" = true := by decide

example : jsParseInt "12.5" = some 12 := by decide

example : jsParseInt "1e2" = some 1 := by decide

example : jsParseInt " 42 " = some 42 := by decide

example : jsParseInt "-5" = some (-5) := by decide

example : jsParseInt "0x10" = some 16 := by decide

example : jsParseInt "abc" = none := by decide

example : jsParseInt " " = none := by decide

example : jsParseInt "-0" = some 0 := by decide

example : effectiveNum "0" 20 = 20 := by decide

example : effectiveNum "-5" 20 = -5 := by decide

example : effectiveNum "" 1 = 1 := by decide

example :
    (usersFilterBuild "bob" "female").whereClause =
      " WHERE username ILIKE $1 AND gender = $2" := by decide

example :
    (usersFilterBuild "" "female").whereClause = " WHERE gender = $1" := by decide

example :
    (messagesFilterBuild "7" "3" "hi" "" "2024").whereClause =
      " WHERE conversation_id = $1 AND  (sender_user_id = $2 OR receiver_user_id = $2)" ++
      " AND  message ILIKE $3 AND  timestamp <= $4" := by decide

example :
    (messagesFilterBuild "" "3" "" "" "").whereClause =
      " WHERE  (sender_user_id = $1 OR receiver_user_id = $1)" := by decide

example :
    (messagesFilterBuild "7" "3" "hi" "" "2024").queryParams =
      [SqlValue.str "7", SqlValue.num (some 3), SqlValue.str "%hi%",
       SqlValue.str "2024"] := by decide

example :
    specJoinConds (specAssign 1 (usersCondTemplates "bob" "female")) =
      " WHERE username ILIKE $1 AND gender = $2" := by decide

/-- The count parameter list is always the filter parameter list: slicing
off the two trailing entries undoes the push of limit and offset. -/
lemma countQueryParams_eq_filterParams (b : FilterBuild) (limit offset : Int) :
    countQueryParams b limit offset = b.queryParams := by
  show (b.queryParams ++
      [SqlValue.num (some limit), SqlValue.num (some offset)]).dropLast.dropLast = b.queryParams
  rw [show b.queryParams ++ [SqlValue.num (some limit), SqlValue.num (some offset)] =
      (b.queryParams ++ [SqlValue.num (some limit)]) ++ [SqlValue.num (some offset)] by simp,
    List.dropLast_concat, List.dropLast_concat]

set_option maxRecDepth 4000 in
/-- Structural facts about the users filter builder, for every filter
combination: refinement to the spec joiner with contiguous indices, one
parameter per active filter, next index contiguous, emptiness exactly when
no filter is active, a WHERE opener otherwise, and the count parameter list
being the page parameter list without the two pagination entries. -/
lemma usersFilterBuild_props (search gender : String) (limit offset : Int) :
    (usersFilterBuild search gender).whereClause =
      specJoinConds (specAssign 1 (usersCondTemplates search gender)) ∧
    (usersFilterBuild search gender).queryParams.length = usersActiveCount search gender ∧
    (usersFilterBuild search gender).paramIndex = usersActiveCount search gender + 1 ∧
    ((usersFilterBuild search gender).whereClause = "" ↔ usersActiveCount search gender = 0) ∧
    ((usersFilterBuild search gender).whereClause = "" ∨
      "WHERE".data.isPrefixOf ((usersFilterBuild search gender).whereClause.data.dropWhile (· = ' '))) ∧
    countQueryParams (usersFilterBuild search gender) limit offset =
      (usersFilterBuild search gender).queryParams ∧
    pageQueryParams (usersFilterBuild search gender) limit offset =
      (usersFilterBuild search gender).queryParams ++
        [SqlValue.num (some limit), SqlValue.num (some offset)] := by
  refine ⟨?_, ?_, ?_, ?_, ?_, countQueryParams_eq_filterParams _ _ _, rfl⟩ <;>
    rcases eq_or_ne search "" with hs | hs <;> rcases eq_or_ne gender "" with hg | hg <;>
      simp [usersFilterBuild, usersCondTemplates, usersActiveCount, specAssign,
            specJoinConds, hs, hg] <;> decide

set_option maxRecDepth 8000 in
/-- Structural facts about the messages filter builder, for every filter
combination, mirroring usersFilterBuild_props. -/
lemma messagesFilterBuild_props (c u s f t : String) (limit offset : Int) :
    (messagesFilterBuild c u s f t).whereClause =
      specJoinConds (specAssign 1 (messagesCondTemplates c u s f t)) ∧
    (messagesFilterBuild c u s f t).queryParams.length = messagesActiveCount c u s f t ∧
    (messagesFilterBuild c u s f t).paramIndex = messagesActiveCount c u s f t + 1 ∧
    ((messagesFilterBuild c u s f t).whereClause = "" ↔ messagesActiveCount c u s f t = 0) ∧
    ((messagesFilterBuild c u s f t).whereClause = "" ∨
      "WHERE".data.isPrefixOf ((messagesFilterBuild c u s f t).whereClause.data.dropWhile (· = ' '))) ∧
    countQueryParams (messagesFilterBuild c u s f t) limit offset =
      (messagesFilterBuild c u s f t).queryParams ∧
    pageQueryParams (messagesFilterBuild c u s f t) limit offset =
      (messagesFilterBuild c u s f t).queryParams ++
        [SqlValue.num (some limit), SqlValue.num (some offset)] := by
  refine ⟨?_, ?_, ?_, ?_, ?_, countQueryParams_eq_filterParams _ _ _, rfl⟩ <;>
    rcases eq_or_ne c "" with hc | hc <;> rcases eq_or_ne u "" with hu | hu <;>
      rcases eq_or_ne s "" with hs | hs <;> rcases eq_or_ne f "" with hf | hf <;>
        rcases eq_or_ne t "" with ht | ht <;>
          simp [messagesFilterBuild, messagesCondTemplates, messagesActiveCount, specAssign,
                specJoinConds, hc, hu, hs, hf, ht] <;> decide

/-- C1: for every combination of the optional filters of the users and
messages list endpoints, the generated predicate is empty exactly when no
filter is active and otherwise opens with WHERE (after the single leading
separator space the concatenation emits) joining successive conditions with
AND, the bound parameter list has exactly one entry per active filter with
placeholder indices assigned contiguously from 1 in declaration order (the
refinement to the specification-side joiner), and the count query receives
the same parameter list minus the two trailing pagination parameters that
the page query appends. -/
theorem filter_predicate_correct
    (search gender c u s f t : String) (limit offset : Int) :
    ((usersFilterBuild search gender).whereClause =
        specJoinConds (specAssign 1 (usersCondTemplates search gender)) ∧
      (usersFilterBuild search gender).queryParams.length = usersActiveCount search gender ∧
      (usersFilterBuild search gender).paramIndex = usersActiveCount search gender + 1 ∧
      ((usersFilterBuild search gender).whereClause = "" ↔ usersActiveCount search gender = 0) ∧
      ((usersFilterBuild search gender).whereClause = "" ∨
        "WHERE".data.isPrefixOf
          ((usersFilterBuild search gender).whereClause.data.dropWhile (· = ' '))) ∧
      countQueryParams (usersFilterBuild search gender) limit offset =
        (usersFilterBuild search gender).queryParams ∧
      pageQueryParams (usersFilterBuild search gender) limit offset =
        (usersFilterBuild search gender).queryParams ++
          [SqlValue.num (some limit), SqlValue.num (some offset)]) ∧
    ((messagesFilterBuild c u s f t).whereClause =
        specJoinConds (specAssign 1 (messagesCondTemplates c u s f t)) ∧
      (messagesFilterBuild c u s f t).queryParams.length = messagesActiveCount c u s f t ∧
      (messagesFilterBuild c u s f t).paramIndex = messagesActiveCount c u s f t + 1 ∧
      ((messagesFilterBuild c u s f t).whereClause = "" ↔ messagesActiveCount c u s f t = 0) ∧
      ((messagesFilterBuild c u s f t).whereClause = "" ∨
        "WHERE".data.isPrefixOf
          ((messagesFilterBuild c u s f t).whereClause.data.dropWhile (· = ' '))) ∧
      countQueryParams (messagesFilterBuild c u s f t) limit offset =
        (messagesFilterBuild c u s f t).queryParams ∧
      pageQueryParams (messagesFilterBuild c u s f t) limit offset =
        (messagesFilterBuild c u s f t).queryParams ++
          [SqlValue.num (some limit), SqlValue.num (some offset)]) :=
  ⟨usersFilterBuild_props search gender limit offset,
   messagesFilterBuild_props c u s f t limit offset⟩

/-- The JavaScript ceiling computation (total + limit - 1) / limit agrees
with the mathematical ceiling of the rational division for a positive
divisor. -/
lemma add_pred_div_eq_ceil (t l : Nat) (hl : 0 < l) :
    ((t + l - 1) / l : Nat) = Nat.ceil ((t : ℚ) / (l : ℚ)) := by
  have hl0 : (0 : ℚ) < (l : ℚ) := by exact_mod_cast hl
  apply le_antisymm
  · have h1 : (t : ℚ) ≤ (l : ℚ) * (Nat.ceil ((t : ℚ) / (l : ℚ)) : ℚ) := by
      calc (t : ℚ) = (l : ℚ) * ((t : ℚ) / (l : ℚ)) := by field_simp
        _ ≤ (l : ℚ) * (Nat.ceil ((t : ℚ) / (l : ℚ)) : ℚ) :=
            mul_le_mul_of_nonneg_left (Nat.le_ceil _) (le_of_lt hl0)
    have h2 : t ≤ l * Nat.ceil ((t : ℚ) / (l : ℚ)) := by exact_mod_cast h1
    have h3 : t ⌈/⌉ l ≤ Nat.ceil ((t : ℚ) / (l : ℚ)) := (ceilDiv_le_iff_le_mul hl).2 h2
    simpa [Nat.ceilDiv_eq_add_pred_div] using h3
  · rw [Nat.ceil_le, div_le_iff₀ hl0]
    have h5 : t ≤ l • (t ⌈/⌉ l) := le_smul_ceilDiv hl
    have h4 : t ≤ (t + l - 1) / l * l := by
      simpa [Nat.ceilDiv_eq_add_pred_div, smul_eq_mul, Nat.mul_comm] using h5
    exact_mod_cast h4

/-- Total is never larger than totalPages times limit. -/
lemma length_le_totalPages_mul (t l : Nat) (hl : 0 < l) :
    t ≤ (t + l - 1) / l * l := by
  have h5 : t ≤ l • (t ⌈/⌉ l) := le_smul_ceilDiv hl
  simpa [Nat.ceilDiv_eq_add_pred_div, smul_eq_mul, Nat.mul_comm] using h5

/-- C2: for every paginated request with a positive limit, the returned
summary satisfies totalPages equal to the ceiling of total over limit
(hence zero when total is zero), hasNext equal to page < totalPages and
hasPrev equal to page > 1, and a page beyond the last page yields an empty
row set with hasNext false. -/
theorem pagination_summary_correct (α : Type) (rows : List α) (page limit : Nat)
    (hl : 0 < limit) :
    (paginate rows page limit).2.totalPages = Nat.ceil ((rows.length : ℚ) / (limit : ℚ)) ∧
    (rows.length = 0 → (paginate rows page limit).2.totalPages = 0) ∧
    (paginate rows page limit).2.hasNext =
      decide (page < (paginate rows page limit).2.totalPages) ∧
    (paginate rows page limit).2.hasPrev = decide (1 < page) ∧
    ((paginate rows page limit).2.totalPages < page →
      (paginate rows page limit).1 = [] ∧ (paginate rows page limit).2.hasNext = false) := by
  refine ⟨add_pred_div_eq_ceil rows.length limit hl, ?_, rfl, rfl, ?_⟩
  · intro h0
    simp only [paginate, h0]
    rw [Nat.div_eq_of_lt (by omega)]
  · intro hbeyond
    simp only [paginate] at hbeyond ⊢
    constructor
    · have hlen : rows.length ≤ (page - 1) * limit := by
        have := length_le_totalPages_mul rows.length limit hl
        have hp : (rows.length + limit - 1) / limit ≤ page - 1 := by omega
        calc rows.length ≤ (rows.length + limit - 1) / limit * limit :=
              length_le_totalPages_mul rows.length limit hl
          _ ≤ (page - 1) * limit := Nat.mul_le_mul_right limit hp
      rw [List.drop_eq_nil_of_le hlen]
      simp
    · simp only [decide_eq_false_iff_not]
      omega

/-- C2 witness: three rows, limit two, requested page five, which is beyond
the last page. -/
theorem pagination_summary_correct_witness :
    0 < 2 ∧
    (paginate [0, 1, 2] 5 2).1 = ([] : List Nat) ∧
    (paginate [0, 1, 2] 5 2).2.hasNext = false :=
  ⟨by decide,
   (pagination_summary_correct Nat [0, 1, 2] 5 2 (by decide)).2.2.2.2 (by decide)⟩

/-- C3 counterexample: a requested limit of -5 reaches the query as -5, not
as a value of at least 1, and a requested page of -3 likewise stays
negative, because parseInt(raw) || default only replaces NaN and 0. The
defaults 20 and 1 are the users endpoint limit and page defaults. -/
theorem limit_coercion_counterexample :
    effectiveNum "-5" 20 = -5 ∧ ¬ (1 ≤ effectiveNum "-5" 20) ∧
    effectiveNum "-3" 1 = -3 ∧ ¬ (1 ≤ effectiveNum "-3" 1) := by decide

/-- C3 amended: a page or limit parameter that fails to parse or parses to
zero is replaced by the endpoint default, so with a nonzero default the
effective value is never zero and the totalPages division is never a
division by zero; but a negative parsed value is used unchanged, so the
effective page and limit are not guaranteed to be at least 1. -/
theorem effective_page_limit_nonzero (raw : String) (d : Int) (hd : d ≠ 0) :
    effectiveNum raw d ≠ 0 ∧
    ((jsParseInt raw = none ∨ jsParseInt raw = some 0) → effectiveNum raw d = d) ∧
    (∀ n, jsParseInt raw = some n → n ≠ 0 → effectiveNum raw d = n) := by
  unfold effectiveNum jsNumOrDefault
  rcases h : jsParseInt raw with _ | n
  · exact ⟨hd, fun _ => rfl, fun n hn => by simp at hn⟩
  · by_cases hn : n = 0
    · refine ⟨by simp [hn, hd], fun _ => by simp [hn], fun m hm hm0 => ?_⟩
      rw [Option.some_inj] at hm
      omega
    · refine ⟨by simp [hn], fun hc => ?_, fun m hm hm0 => ?_⟩
      · rcases hc with hc | hc
        · exact absurd hc (by simp)
        · rw [Option.some_inj] at hc
          exact absurd hc hn
      · rw [Option.some_inj] at hm
        subst hm
        simp [hn]

/-- C3 amended witness: the users endpoint limit default 20 with a
requested limit of -5 and with an unparseable limit. -/
theorem effective_page_limit_nonzero_witness :
    (20 : Int) ≠ 0 ∧ effectiveNum "-5" 20 ≠ 0 ∧ effectiveNum "abc" 20 = 20 :=
  ⟨by decide, (effective_page_limit_nonzero "-5" 20 (by decide)).1,
   (effective_page_limit_nonzero "abc" 20 (by decide)).2.1 (Or.inl (by decide))⟩

/-- A decimal digit is not JavaScript whitespace. -/
lemma isDigit_not_jsWhitespace (c : Char) (h : c.isDigit = true) :
    jsWhitespace c = false := by
  by_contra hw
  rw [Bool.not_eq_false] at hw
  simp only [jsWhitespace, Bool.or_eq_true, decide_eq_true_eq] at hw
  rcases hw with ((((h1 | h1) | h1) | h1) | h1) | h1 <;> subst h1 <;>
    exact absurd h (by decide)

/-- Dropping whitespace leaves an all-digit list unchanged. -/
lemma dropWhile_ws_of_digits (l : List Char) (hd : ∀ c ∈ l, c.isDigit = true) :
    l.dropWhile jsWhitespace = l := by
  cases l with
  | nil => rfl
  | cons a r =>
    simp [List.dropWhile_cons, isDigit_not_jsWhitespace a (hd a (by simp))]

/-- Trimming whitespace leaves an all-digit list unchanged. -/
lemma jsTrimChars_of_digits (l : List Char) (hd : ∀ c ∈ l, c.isDigit = true) :
    jsTrimChars l = l := by
  unfold jsTrimChars
  rw [dropWhile_ws_of_digits l hd,
    dropWhile_ws_of_digits l.reverse (fun c hc => hd c (List.mem_reverse.1 hc)),
    List.reverse_reverse]

/-- A nonempty all-digit list satisfies the unsigned decimal grammar. -/
lemma strUnsignedDecimalOk_of_digits (l : List Char) (hne : l ≠ [])
    (hd : ∀ c ∈ l, c.isDigit = true) : strUnsignedDecimalOk l = true := by
  have h1 : l.takeWhile Char.isDigit = l := List.takeWhile_eq_self_iff.2 hd
  simp only [strUnsignedDecimalOk, h1, List.drop_length]
  simp [hne]

/-- A nonempty all-digit string is numeric for the isNaN classification. -/
lemma jsIsNaN_false_of_digits (s : String) (hne : s.data ≠ [])
    (hd : ∀ c ∈ s.data, c.isDigit = true) : jsIsNaNOnString s = false := by
  unfold jsIsNaNOnString
  rw [jsTrimChars_of_digits s.data hd]
  have hsd : strUnsignedDecimalOk s.data = true :=
    strUnsignedDecimalOk_of_digits s.data hne hd
  rcases hl : s.data with _ | ⟨c, r⟩
  · exact absurd hl hne
  · rw [hl] at hsd
    have hc : c.isDigit = true := by
      apply hd
      rw [hl]
      simp
    split
    · rfl
    · rename_i heq
      injection heq with h1 h2
      subst h1
      exact absurd hc (by decide)
    · rename_i heq
      injection heq with h1 h2
      subst h1
      exact absurd hc (by decide)
    · simp [hsd]

/-- parseInt of a nonempty all-digit body yields its decimal value. -/
lemma jsParseIntBody_of_digits (sign : Int) (b : List Char) (hne : b ≠ [])
    (hd : ∀ c ∈ b, c.isDigit = true) :
    jsParseIntBody sign b = some (sign * (decDigitsVal b : Nat)) := by
  have htw : b.takeWhile Char.isDigit = b := List.takeWhile_eq_self_iff.2 hd
  have hbe : b.isEmpty = false := by
    cases b with
    | nil => exact absurd rfl hne
    | cons a r => rfl
  unfold jsParseIntBody
  split
  · rename_i c r
    have hc : c.isDigit = true := hd c (by simp)
    have hx1 : c ≠ 'x' := by rintro rfl; exact absurd hc (by decide)
    have hx2 : c ≠ 'X' := by rintro rfl; exact absurd hc (by decide)
    simp [hx1, hx2, htw, hbe]
  · simp [htw, hbe]

/-- parseInt of a nonempty all-digit string yields its decimal value. -/
lemma jsParseInt_of_digits (s : String) (hne : s.data ≠ [])
    (hd : ∀ c ∈ s.data, c.isDigit = true) :
    jsParseInt s = some ((decDigitsVal s.data : Nat) : Int) := by
  unfold jsParseInt
  rw [dropWhile_ws_of_digits s.data hd]
  have hres : jsParseIntBody 1 s.data = some ((1 : Int) * (decDigitsVal s.data : Nat)) :=
    jsParseIntBody_of_digits 1 s.data hne hd
  rcases hl : s.data with _ | ⟨c, r⟩
  · exact absurd hl hne
  · have hc : c.isDigit = true := by
      apply hd
      rw [hl]
      simp
    rw [hl] at hres
    split
    · rename_i heq
      injection heq with h1 h2
      subst h1
      exact absurd hc (by decide)
    · rename_i heq
      injection heq with h1 h2
      subst h1
      exact absurd hc (by decide)
    · rw [hres, one_mul]

/-- C4: for every path segment of the single-user lookup, a purely numeric
segment is looked up by numeric user id with its decimal value, any
segment the number coercion accepts is looked up by id and not by handle,
a segment the number coercion rejects is looked up by handle with the
at-sign marker prepended exactly when absent and never duplicated, and
zero matching rows produce the distinct 404 not-found response rather
than a server error. -/
theorem identifier_resolution_correct (s : String) :
    (s.data ≠ [] → (∀ c ∈ s.data, c.isDigit = true) →
      resolveIdentifier s = UserLookup.byId (some ((decDigitsVal s.data : Nat) : Int))) ∧
    (jsIsNaNOnString s = false → ∃ v, resolveIdentifier s = UserLookup.byId v) ∧
    (jsIsNaNOnString s = true →
      resolveIdentifier s =
        UserLookup.byHandle (if "@".data.isPrefixOf s.data then s else "@" ++ s)) ∧
    (∀ u, resolveIdentifier s = UserLookup.byHandle u →
      ("@".data.isPrefixOf s.data = true → u = s) ∧
      ("@".data.isPrefixOf s.data = false → u = "@" ++ s)) ∧
    (∀ (γ : Type) (convCountDb msgCountDb : Int → Except String Int)
        (recentDb : Int → Except String (List γ)),
      getUserDetails s (fun _ => Except.ok ([] : List UserRow)) convCountDb
          msgCountDb recentDb =
        ApiResponse.failure 404 ⟨"User not found", none, none⟩) := by
  refine ⟨?_, ?_, ?_, ?_, ?_⟩
  · intro hne hd
    unfold resolveIdentifier
    rw [jsIsNaN_false_of_digits s hne hd, jsParseInt_of_digits s hne hd]
    simp
  · intro hn
    refine ⟨jsParseInt s, ?_⟩
    unfold resolveIdentifier
    simp [hn]
  · intro hn
    unfold resolveIdentifier
    simp [hn]
  · intro u hu
    unfold resolveIdentifier at hu
    by_cases hn : jsIsNaNOnString s = false
    · simp [hn] at hu
    · simp [hn] at hu
      constructor
      · intro hat
        have hat2 : ['@'] <+: s.data := by
          simpa [List.isPrefixOf_iff_prefix] using hat
        rw [← hu]
        simp [hat2]
      · intro hat
        have hat2 : ¬ (['@'] <+: s.data) := by
          rw [← List.isPrefixOf_iff_prefix]
          have hat3 : (['@'] : List Char).isPrefixOf s.data = false := by simpa using hat
          simp [hat3]
        rw [← hu]
        simp [hat2]
  · intro γ convCountDb msgCountDb recentDb
    unfold getUserDetails
    rfl

/-- C4 witness: the segment 17 resolves by id, foo and the marked form of
foo resolve to the same handle, and an empty user lookup yields 404. -/
theorem identifier_resolution_correct_witness :
    resolveIdentifier "17" = UserLookup.byId (some 17) ∧
    resolveIdentifier "foo" = UserLookup.byHandle "@foo" ∧
    resolveIdentifier "@foo" = UserLookup.byHandle "@foo" ∧
    getUserDetails "17" (fun _ => Except.ok ([] : List UserRow))
        (fun _ => Except.ok 0) (fun _ => Except.ok 0)
        (fun _ => Except.ok ([] : List Nat)) =
      ApiResponse.failure 404 ⟨"User not found", none, none⟩ :=
  ⟨((identifier_resolution_correct "17").1 (by decide) (by decide)).trans (by decide),
   ((identifier_resolution_correct "foo").2.2.1 (by decide)).trans (by decide),
   ((identifier_resolution_correct "@foo").2.2.1 (by decide)).trans (by decide),
   (identifier_resolution_correct "17").2.2.2.2 Nat (fun _ => Except.ok 0)
     (fun _ => Except.ok 0) (fun _ => Except.ok [])⟩

/-- C7: every failure of the user details and conversation details handlers
other than the explicit not-found case is a 500 response with the fixed
error string, the thrown message and the handler context label; the
not-found cases are 404 responses whose constant bodies carry no database
error text; a 404 happens exactly when the lookup returned zero rows; and a
200 response implies every database call of the handler succeeded, so no
200 response with a partial body exists. -/
theorem error_response_taxonomy (γ δ ε : Type) (identifier convId : String)
    (userDb : UserLookup → Except String (List UserRow))
    (convCountDb msgCountDb : Int → Except String Int)
    (recentDb : Int → Except String (List γ))
    (convDb : String → Except String (List δ))
    (msgsDb : String → Except String (List ε)) :
    (∀ msg context, (handleError msg context : ApiResponse γ) =
      ApiResponse.failure 500 ⟨"Internal server error", some msg, some context⟩) ∧
    ((∃ b, getUserDetails identifier userDb convCountDb msgCountDb recentDb =
        ApiResponse.ok b) ∨
      getUserDetails identifier userDb convCountDb msgCountDb recentDb =
        ApiResponse.failure 404 ⟨"User not found", none, none⟩ ∨
      ∃ m, getUserDetails identifier userDb convCountDb msgCountDb recentDb =
        ApiResponse.failure 500 ⟨"Internal server error", some m, some "get user details"⟩) ∧
    (getUserDetails identifier userDb convCountDb msgCountDb recentDb =
        ApiResponse.failure 404 ⟨"User not found", none, none⟩ ↔
      userDb (resolveIdentifier identifier) = Except.ok []) ∧
    (∀ b, getUserDetails identifier userDb convCountDb msgCountDb recentDb =
        ApiResponse.ok b →
      ∃ rest, userDb (resolveIdentifier identifier) = Except.ok (b.user :: rest) ∧
        convCountDb b.user.user_id = Except.ok b.conversationCount ∧
        msgCountDb b.user.user_id = Except.ok b.messageCount ∧
        recentDb b.user.user_id = Except.ok b.recentConversations) ∧
    ((∃ b, getConversationDetails convId convDb msgsDb = ApiResponse.ok b) ∨
      getConversationDetails convId convDb msgsDb =
        ApiResponse.failure 404 ⟨"Conversation not found", none, none⟩ ∨
      ∃ m, getConversationDetails convId convDb msgsDb =
        ApiResponse.failure 500
          ⟨"Internal server error", some m, some "get conversation details"⟩) ∧
    (∀ b, getConversationDetails convId convDb msgsDb = ApiResponse.ok b →
      ∃ rest, convDb convId = Except.ok (b.conversation :: rest) ∧
        msgsDb convId = Except.ok b.messages) := by
  refine ⟨fun msg context => rfl, ?_, ?_, ?_, ?_, ?_⟩
  · unfold getUserDetails handleError
    rcases hu : userDb (resolveIdentifier identifier) with e | (_ | ⟨user, rest⟩)
    · exact Or.inr (Or.inr ⟨e, rfl⟩)
    · exact Or.inr (Or.inl rfl)
    · rcases hc : convCountDb user.user_id with e | cc <;>
        rcases hm : msgCountDb user.user_id with e2 | mc <;>
          rcases hr : recentDb user.user_id with e3 | rc <;>
            simp [hc, hm, hr]
  · unfold getUserDetails handleError
    rcases hu : userDb (resolveIdentifier identifier) with e | (_ | ⟨user, rest⟩)
    · simp
    · simp
    · rcases hc : convCountDb user.user_id with e | cc <;>
        rcases hm : msgCountDb user.user_id with e2 | mc <;>
          rcases hr : recentDb user.user_id with e3 | rc <;>
            simp [hc, hm, hr]
  · intro b
    unfold getUserDetails handleError
    rcases hu : userDb (resolveIdentifier identifier) with e | (_ | ⟨user, rest⟩)
    · simp
    · simp
    · rcases hc : convCountDb user.user_id with e | cc <;>
        rcases hm : msgCountDb user.user_id with e2 | mc <;>
          rcases hr : recentDb user.user_id with e3 | rc <;>
            simp [hc, hm, hr]
      rintro rfl
      exact ⟨rfl, hc, hm, hr⟩
  · unfold getConversationDetails handleError
    rcases hcv : convDb convId with e | (_ | ⟨conv, rest⟩) <;>
      rcases hms : msgsDb convId with e2 | ms <;>
        simp [hcv, hms]
  · intro b
    unfold getConversationDetails handleError
    rcases hcv : convDb convId with e | (_ | ⟨conv, rest⟩) <;>
      rcases hms : msgsDb convId with e2 | ms <;>
        simp [hcv, hms]
    rintro rfl
    exact ⟨rfl, rfl⟩

/-- C7 witness: a failing recent-conversations query turns into the fixed
500 body, an empty user row set turns into the constant 404 body, and a
fully successful conversation lookup returns the full body. -/
theorem error_response_taxonomy_witness :
    ((∃ b, getUserDetails "17" (fun _ => Except.ok [⟨17, "@a", "male"⟩])
        (fun _ => Except.ok 1) (fun _ => Except.ok 2)
        (fun _ => (Except.error "relation gone" : Except String (List Nat))) =
          ApiResponse.ok b) ∨
      getUserDetails "17" (fun _ => Except.ok [⟨17, "@a", "male"⟩])
        (fun _ => Except.ok 1) (fun _ => Except.ok 2)
        (fun _ => (Except.error "relation gone" : Except String (List Nat))) =
          ApiResponse.failure 404 ⟨"User not found", none, none⟩ ∨
      ∃ m, getUserDetails "17" (fun _ => Except.ok [⟨17, "@a", "male"⟩])
        (fun _ => Except.ok 1) (fun _ => Except.ok 2)
        (fun _ => (Except.error "relation gone" : Except String (List Nat))) =
          ApiResponse.failure 500
            ⟨"Internal server error", some m, some "get user details"⟩) ∧
    (getConversationDetails "9" (fun _ => Except.ok ([] : List Nat))
        (fun _ => Except.ok ([] : List Nat)) =
      ApiResponse.failure 404 ⟨"Conversation not found", none, none⟩) :=
  ⟨(error_response_taxonomy Nat Nat Nat "17" "9"
      (fun _ => Except.ok [⟨17, "@a", "male"⟩]) (fun _ => Except.ok 1)
      (fun _ => Except.ok 2)
      (fun _ => (Except.error "relation gone" : Except String (List Nat)))
      (fun _ => Except.ok []) (fun _ => Except.ok [])).2.1,
   by decide⟩

/-- C5: when the summary read yields at least one row the fallback never
runs and the response is the shaping of that row; when the summary read
throws or yields zero rows the fallback runs exactly once and, when it
succeeds, its row is substituted transparently through the identical
shaping, so the response shape is the same on both paths and the
summary-read failure never surfaces to the caller. -/
theorem dashboard_fallback_correct (userTotal : Int) (genderRows : List GenderCount)
    (msgStats : List MsgStatsRow) (daily : List DailyRow)
    (primary : Except String (List ConvStatsRow))
    (fallback : Except String ConvStatsRow) :
    (∀ r rest, primary = Except.ok (r :: rest) →
      dashboardStats userTotal genderRows msgStats daily primary fallback =
        (ApiResponse.ok (shapeDashboard userTotal genderRows msgStats daily r), 0)) ∧
    ((primary = Except.ok [] ∨ ∃ e, primary = Except.error e) →
      (dashboardStats userTotal genderRows msgStats daily primary fallback).2 = 1 ∧
      ∀ fr, fallback = Except.ok fr →
        (dashboardStats userTotal genderRows msgStats daily primary fallback).1 =
          ApiResponse.ok (shapeDashboard userTotal genderRows msgStats daily fr)) := by
  constructor
  · rintro r rest rfl
    rfl
  · intro hp
    rcases hp with rfl | ⟨e, rfl⟩ <;>
      rcases hf : fallback with e2 | fr <;>
        simp [dashboardStats, pickConversationStats, handleError]

/-- C5 witness: a summary read that throws, with a succeeding fallback row:
the fallback runs once and the response is the shaped fallback row. -/
theorem dashboard_fallback_correct_witness :
    (dashboardStats 3 [] [] [] (Except.error "relation absent")
        (Except.ok ⟨some 5, some 2, some 3, some 4, some 1⟩)).2 = 1 ∧
    (dashboardStats 3 [] [] [] (Except.error "relation absent")
        (Except.ok ⟨some 5, some 2, some 3, some 4, some 1⟩)).1 =
      ApiResponse.ok (shapeDashboard 3 [] [] [] ⟨some 5, some 2, some 3, some 4, some 1⟩) := by
  have h := (dashboard_fallback_correct 3 [] [] [] (Except.error "relation absent")
    (Except.ok ⟨some 5, some 2, some 3, some 4, some 1⟩)).2
    (Or.inr ⟨"relation absent", rfl⟩)
  exact ⟨h.1, h.2 _ rfl⟩

/-- The comparator is transitive. -/
lemma activityDesc_trans (a b c : ActivityRow) (h1 : activityDesc a b = true)
    (h2 : activityDesc b c = true) : activityDesc a c = true := by
  simp only [activityDesc, decide_eq_true_eq] at h1 h2 ⊢
  exact le_trans h2 h1

/-- The comparator is total. -/
lemma activityDesc_total (a b : ActivityRow) :
    (activityDesc a b || activityDesc b a) = true := by
  simp only [activityDesc, Bool.or_eq_true, decide_eq_true_eq]
  exact Int.le_total (activityTimestamp b) (activityTimestamp a)

/-- C6: the recent-activity merge concatenates the two tagged row sets,
re-sorts by timestamp descending and truncates to the first limit entries,
so the output is sorted descending, has length the minimum of limit and
the combined size, and together with the dropped tail is a permutation of
the input in which every dropped row is no more recent than every returned
row; on the example sets with timestamps 3, 2, 1 and 4, 0, -1 and limit 4
the output is exactly the rows with timestamps 4, 3, 2, 1 in that order. -/
theorem activity_merge_correct (convRows msgRows : List ActivityRow) (limit : Nat) :
    List.Pairwise (fun a b => activityTimestamp b ≤ activityTimestamp a)
      (recentActivity convRows msgRows limit) ∧
    (recentActivity convRows msgRows limit).length =
      min limit (convRows.length + msgRows.length) ∧
    (recentActivity convRows msgRows limit ++
      ((convRows ++ msgRows).mergeSort activityDesc).drop limit).Perm
        (convRows ++ msgRows) ∧
    (∀ x ∈ recentActivity convRows msgRows limit,
      ∀ y ∈ ((convRows ++ msgRows).mergeSort activityDesc).drop limit,
        activityTimestamp y ≤ activityTimestamp x) ∧
    recentActivity exConvRows exMsgRows 4 =
      [ActivityRow.message 1 "a" "b" "hi" 4,
       ActivityRow.conversation 1 "a" "b" 3 "active",
       ActivityRow.conversation 2 "c" "d" 2 "ended",
       ActivityRow.conversation 3 "e" "f" 1 "active"] := by
  have hsorted0 := List.sorted_mergeSort activityDesc_trans activityDesc_total
    (convRows ++ msgRows)
  have hsorted : List.Pairwise (fun a b => activityTimestamp b ≤ activityTimestamp a)
      ((convRows ++ msgRows).mergeSort activityDesc) :=
    hsorted0.imp (fun h => by simpa [activityDesc] using h)
  have hperm := List.mergeSort_perm (convRows ++ msgRows) activityDesc
  refine ⟨?_, ?_, ?_, ?_, ?_⟩
  · exact hsorted.sublist (List.take_sublist _ _)
  · rw [recentActivity, List.length_take, hperm.length_eq, List.length_append]
  · rw [recentActivity, List.take_append_drop]
    exact hperm
  · intro x hx y hy
    have hsplit := hsorted
    rw [← List.take_append_drop limit ((convRows ++ msgRows).mergeSort activityDesc)]
      at hsplit
    exact (List.pairwise_append.1 hsplit).2.2 x hx y hy
  · simp [recentActivity, exConvRows, exMsgRows, List.mergeSort, List.merge, activityDesc,
        activityTimestamp]

/-- C6 witness: the universal part applied to the example sets, together
with its closed consequences. -/
theorem activity_merge_correct_witness :
    (recentActivity exConvRows exMsgRows 4).length =
      min 4 (exConvRows.length + exMsgRows.length) ∧
    List.Pairwise (fun a b => activityTimestamp b ≤ activityTimestamp a)
      (recentActivity exConvRows exMsgRows 4) :=
  ⟨(activity_merge_correct exConvRows exMsgRows 4).2.1,
   (activity_merge_correct exConvRows exMsgRows 4).1⟩

/-- The condition templates depend only on which filters are active. -/
lemma messagesCondTemplates_pattern (c u s f t c2 u2 s2 f2 t2 : String)
    (hc : c ≠ "" ↔ c2 ≠ "") (hu : u ≠ "" ↔ u2 ≠ "") (hs : s ≠ "" ↔ s2 ≠ "")
    (hf : f ≠ "" ↔ f2 ≠ "") (ht : t ≠ "" ↔ t2 ≠ "") :
    messagesCondTemplates c u s f t = messagesCondTemplates c2 u2 s2 f2 t2 := by
  unfold messagesCondTemplates
  rw [decide_eq_decide.2 hc, decide_eq_decide.2 hu, decide_eq_decide.2 hs,
    decide_eq_decide.2 hf, decide_eq_decide.2 ht]

/-- The active-filter count depends only on which filters are active. -/
lemma messagesActiveCount_pattern (c u s f t c2 u2 s2 f2 t2 : String)
    (hc : c ≠ "" ↔ c2 ≠ "") (hu : u ≠ "" ↔ u2 ≠ "") (hs : s ≠ "" ↔ s2 ≠ "")
    (hf : f ≠ "" ↔ f2 ≠ "") (ht : t ≠ "" ↔ t2 ≠ "") :
    messagesActiveCount c u s f t = messagesActiveCount c2 u2 s2 f2 t2 := by
  unfold messagesActiveCount
  rw [if_congr hc rfl rfl, if_congr hu rfl rfl, if_congr hs rfl rfl,
    if_congr hf rfl rfl, if_congr ht rfl rfl]

/-- The users templates depend only on which filters are active. -/
lemma usersCondTemplates_pattern (s g s2 g2 : String)
    (hs : s ≠ "" ↔ s2 ≠ "") (hg : g ≠ "" ↔ g2 ≠ "") :
    usersCondTemplates s g = usersCondTemplates s2 g2 := by
  unfold usersCondTemplates
  rw [decide_eq_decide.2 hs, decide_eq_decide.2 hg]

/-- The users active-filter count depends only on which filters are
active. -/
lemma usersActiveCount_pattern (s g s2 g2 : String)
    (hs : s ≠ "" ↔ s2 ≠ "") (hg : g ≠ "" ↔ g2 ≠ "") :
    usersActiveCount s g = usersActiveCount s2 g2 := by
  unfold usersActiveCount
  rw [if_congr hs rfl rfl, if_congr hg rfl rfl]

set_option maxRecDepth 40000 in
/-- C8 counterexample: the usage-analytics endpoint interpolates the parsed
days value into the query text, so two requests with the same active
filters but different day counts produce different query strings. -/
theorem query_text_interpolation_counterexample :
    analyticsConversationsQuery "3" ≠ analyticsConversationsQuery "5" ∧
    analyticsMessagesQuery "3" ≠ analyticsMessagesQuery "5" := by decide

/-- C8 amended: for the users and messages list endpoints the full count
and page query texts depend only on which filters are active, never on the
supplied values, which reach the database only through the bound parameter
list; the usage-analytics endpoint is the exception: its queries embed the
parsed integer day count (an integer, with unparseable or zero input
replaced by 7) in the INTERVAL literal, so their text depends on the days
input exactly through that integer and on nothing else. -/
theorem query_text_value_independence
    (s g s2 g2 c u sr f t c2 u2 sr2 f2 t2 d d2 : String) :
    ((s ≠ "" ↔ s2 ≠ "") → (g ≠ "" ↔ g2 ≠ "") →
      usersCountQueryText (usersFilterBuild s g) =
        usersCountQueryText (usersFilterBuild s2 g2) ∧
      usersPageQueryText (usersFilterBuild s g) =
        usersPageQueryText (usersFilterBuild s2 g2)) ∧
    ((c ≠ "" ↔ c2 ≠ "") → (u ≠ "" ↔ u2 ≠ "") → (sr ≠ "" ↔ sr2 ≠ "") →
      (f ≠ "" ↔ f2 ≠ "") → (t ≠ "" ↔ t2 ≠ "") →
      messagesCountQueryText (messagesFilterBuild c u sr f t) =
        messagesCountQueryText (messagesFilterBuild c2 u2 sr2 f2 t2) ∧
      messagesPageQueryText (messagesFilterBuild c u sr f t) =
        messagesPageQueryText (messagesFilterBuild c2 u2 sr2 f2 t2)) ∧
    (analyticsConversationsQuery d =
      analyticsConversationsPre ++ toString (analyticsDays d) ++ analyticsConversationsSuf) ∧
    (analyticsMessagesQuery d =
      analyticsMessagesPre ++ toString (analyticsDays d) ++ analyticsMessagesSuf) ∧
    (analyticsDays d = analyticsDays d2 →
      analyticsConversationsQuery d = analyticsConversationsQuery d2 ∧
      analyticsMessagesQuery d = analyticsMessagesQuery d2) := by
  refine ⟨?_, ?_, rfl, rfl, ?_⟩
  · intro hs hg
    have hwc : (usersFilterBuild s g).whereClause = (usersFilterBuild s2 g2).whereClause := by
      rw [(usersFilterBuild_props s g 0 0).1, (usersFilterBuild_props s2 g2 0 0).1,
        usersCondTemplates_pattern s g s2 g2 hs hg]
    have hpi : (usersFilterBuild s g).paramIndex = (usersFilterBuild s2 g2).paramIndex := by
      rw [(usersFilterBuild_props s g 0 0).2.2.1, (usersFilterBuild_props s2 g2 0 0).2.2.1,
        usersActiveCount_pattern s g s2 g2 hs hg]
    exact ⟨by rw [usersCountQueryText, usersCountQueryText, hwc],
      by rw [usersPageQueryText, usersPageQueryText, hwc, hpi]⟩
  · intro hc hu hsr hf ht
    have hwc : (messagesFilterBuild c u sr f t).whereClause =
        (messagesFilterBuild c2 u2 sr2 f2 t2).whereClause := by
      rw [(messagesFilterBuild_props c u sr f t 0 0).1,
        (messagesFilterBuild_props c2 u2 sr2 f2 t2 0 0).1,
        messagesCondTemplates_pattern c u sr f t c2 u2 sr2 f2 t2 hc hu hsr hf ht]
    have hpi : (messagesFilterBuild c u sr f t).paramIndex =
        (messagesFilterBuild c2 u2 sr2 f2 t2).paramIndex := by
      rw [(messagesFilterBuild_props c u sr f t 0 0).2.2.1,
        (messagesFilterBuild_props c2 u2 sr2 f2 t2 0 0).2.2.1,
        messagesActiveCount_pattern c u sr f t c2 u2 sr2 f2 t2 hc hu hsr hf ht]
    exact ⟨by rw [messagesCountQueryText, messagesCountQueryText, hwc],
      by rw [messagesPageQueryText, messagesPageQueryText, hwc, hpi]⟩
  · intro hd
    unfold analyticsConversationsQuery analyticsMessagesQuery
    rw [hd]
    exact ⟨rfl, rfl⟩

/-- C8 amended witness: two messages requests with the same single active
filter but different search values produce identical page query text, and
the analytics text for equal parsed day counts agrees. -/
theorem query_text_value_independence_witness :
    messagesPageQueryText (messagesFilterBuild "" "" "alpha" "" "") =
      messagesPageQueryText (messagesFilterBuild "" "" "beta" "" "") ∧
    analyticsConversationsQuery "7" = analyticsConversationsQuery "abc" := by
  constructor
  · exact ((query_text_value_independence "" "" "" "" "" "" "alpha" "" "" "" "" "beta" "" "" "" "").2.1 (by decide) (by decide) (by decide) (by decide) (by decide)).2
  · exact ((query_text_value_independence "" "" "" "" "" "" "" "" "" "" "" "" "" "" "7" "abc").2.2.2.2 (by decide)).1

/-- C9: every execution of the shared handler shape attempts exactly one
connection, as its first step, and releases it exactly once, as its last
step, on every exit path: successful or not-found response, failed
connect, and thrown work error alike. -/
theorem connection_release_on_all_paths (ρ : Type)
    (connectRes : Except String Unit) (work : Except String ρ)
    (errResp : String → ρ) :
    (apiHandlerEvents connectRes work errResp).1.count ConnEv.connAttempt = 1 ∧
    (apiHandlerEvents connectRes work errResp).1.count ConnEv.connRelease = 1 ∧
    (apiHandlerEvents connectRes work errResp).1.head? = some ConnEv.connAttempt ∧
    (apiHandlerEvents connectRes work errResp).1.getLast? = some ConnEv.connRelease := by
  rcases connectRes with e | u <;> rcases work with e2 | r <;>
    simp [apiHandlerEvents, jsTryCatchFinally]

/-- C10: the numeric classification accepts every segment the JavaScript
number coercion accepts, not only integer literals: whenever isNaN is
false the lookup is by user_id equal to parseInt of the segment and never
by handle. -/
theorem numeric_classification_via_parseInt (s : String)
    (h : jsIsNaNOnString s = false) :
    resolveIdentifier s = UserLookup.byId (jsParseInt s) ∧
    ∀ u, resolveIdentifier s ≠ UserLookup.byHandle u := by
  unfold resolveIdentifier
  simp [h]

/-- C10 witness: 12.5 resolves by numeric id 12 rather than as the handle
marked 12.5, 1e2 resolves by id 1, and a whitespace segment is classified
numeric with a NaN bound parameter. -/
theorem numeric_classification_via_parseInt_witness :
    resolveIdentifier "12.5" = UserLookup.byId (some 12) ∧
    resolveIdentifier "1e2" = UserLookup.byId (some 1) ∧
    resolveIdentifier " " = UserLookup.byId none :=
  ⟨((numeric_classification_via_parseInt "12.5" (by decide)).1).trans (by decide),
   ((numeric_classification_via_parseInt "1e2" (by decide)).1).trans (by decide),
   ((numeric_classification_via_parseInt " " (by decide)).1).trans (by decide)⟩

end AnonApi

